import Mathlib

/-!
Verification of the session_manager repository against its specification.

Python strings are embedded as `List Char` (code points) where string
structure matters, and as Lean `String` where only concrete evaluation is
needed.  Machine integers are `Nat`/`Int`.  Filesystem- and clock-dependent
inputs (path validity, "now" timestamps, generated ids, subprocess results)
are passed in as explicit parameters, since the Python code receives them
from the environment.
-/

/-! ## Shared helpers: Python string primitives -/

/-- Characters treated as whitespace by Python's `str.strip()` and the regex
class `\s` (ASCII range; the sources only ever meet ASCII whitespace). -/
def isPySpace (c : Char) : Bool :=
  c = ' ' || c = '\t' || c = '\n' || c = '\r' || c = '\x0b' || c = '\x0c'

/-- Python `str.strip()` on a list of characters: drop whitespace from both ends. -/
def pyStripL (l : List Char) : List Char :=
  ((l.dropWhile isPySpace).reverse.dropWhile isPySpace).reverse

/-- Python `str.strip()` on a `String`. -/
def pyStrip (s : String) : String :=
  String.mk (pyStripL s.toList)

/-- Literal prefix test on character lists (used to embed the regex engine's
literal matching and Python's `in` operator). -/
def chPre : List Char → List Char → Bool
  | [], _ => true
  | _ :: _, [] => false
  | a :: p, b :: s => if a = b then chPre p s else false

/-- Python `needle in haystack` substring test. -/
def containsSub (needle : List Char) : List Char → Bool
  | [] => chPre needle []
  | c :: t => chPre needle (c :: t) || containsSub needle t

/-- ASCII lowering of one character, modelling `str.lower()` on the ASCII
command words the CLI compares against. -/
def asciiLowerChar (c : Char) : Char :=
  if 'A' ≤ c ∧ c ≤ 'Z' then Char.ofNat (c.toNat + 32) else c

/-- ASCII `str.lower()`. -/
def asciiLower (s : String) : String :=
  String.mk (s.toList.map asciiLowerChar)

/-! ## C5 — utils/formatters.py: format_duration

Direct translation of `format_duration` (src/session_manager/utils/formatters.py,
lines 11-37).  The source formats with the Cyrillic suffixes "с"/"м"/"ч". -/

/-- Translation of `format_duration` from `utils/formatters.py`. -/
def format_duration (seconds : Nat) : String :=
  if seconds < 60 then
    toString seconds ++ "с"
  else
    let minutes := seconds / 60
    let remaining_seconds := seconds % 60
    if minutes < 60 then
      if remaining_seconds > 0 then
        toString minutes ++ "м " ++ toString remaining_seconds ++ "с"
      else
        toString minutes ++ "м"
    else
      let hours := minutes / 60
      let remaining_minutes := minutes % 60
      if remaining_minutes > 0 then
        toString hours ++ "ч " ++ toString remaining_minutes ++ "м"
      else
        toString hours ++ "ч"

/-- Translation of `ContextManager._format_duration` from `core/context.py`
(lines 337-363): the same algorithm with Latin "s"/"m"/"h" suffixes. -/
def ctxFormatDuration (seconds : Nat) : String :=
  if seconds < 60 then
    toString seconds ++ "s"
  else
    let minutes := seconds / 60
    let remaining_seconds := seconds % 60
    if minutes < 60 then
      if remaining_seconds > 0 then
        toString minutes ++ "m " ++ toString remaining_seconds ++ "s"
      else
        toString minutes ++ "m"
    else
      let hours := minutes / 60
      let remaining_minutes := minutes % 60
      if remaining_minutes > 0 then
        toString hours ++ "h " ++ toString remaining_minutes ++ "m"
      else
        toString hours ++ "h"

/-! ## C9 — utils/formatters.py: truncate_string -/

/-- Python slice `l[:i]` with a possibly negative bound `i`. -/
def pySliceTo (l : List Char) (i : Int) : List Char :=
  if 0 ≤ i then l.take i.toNat else l.take ((l.length : Int) + i).toNat

/-- Translation of `truncate_string` from `utils/formatters.py` (lines 258-272):
`s if len(s) <= max_length else s[: max_length - len(suffix)] + suffix`. -/
def truncate_string (s : List Char) (max_length : Int) (suffix : List Char) : List Char :=
  if (s.length : Int) ≤ max_length then s
  else pySliceTo s (max_length - (suffix.length : Int)) ++ suffix

/-! ## C6 — core/project.py: delete_old_snapshots -/

/-- Python slice `l[:-keep]`: empty when `keep = 0`, else all but the last
`keep` elements. -/
def pySliceDropLast {α : Type} (l : List α) (keep : Nat) : List α :=
  if keep = 0 then [] else l.take (l.length - keep)

/-- The deletion loop of `Project.delete_old_snapshots`: tries to delete each
file of `toDelete` in order; `ok` says whether a given deletion succeeds
(a failing deletion is swallowed and the loop continues).  Returns the count
of successful deletions together with the deleted files in order. -/
def deleteSnapLoop {α : Type} (ok : α → Bool) : List α → Nat × List α
  | [] => (0, [])
  | s :: rest =>
      let r := deleteSnapLoop ok rest
      if ok s then (r.1 + 1, s :: r.2) else r

/-- Translation of `Project.delete_old_snapshots` (core/project.py lines
177-203).  `snapshots` is the sorted list returned by `list_snapshots`
(oldest first); `ok` models whether `Storage.delete_file` succeeds for a
given file. -/
def delete_old_snapshots {α : Type} (snapshots : List α) (keep : Nat) (ok : α → Bool) :
    Nat × List α :=
  if snapshots.length ≤ keep then (0, [])
  else deleteSnapLoop ok (pySliceDropLast snapshots keep)

/-! ## C7 — __main__.py: main

Translation of `main` from `src/session_manager/__main__.py` (lines 10-63).
The function is a placeholder: it prints a banner and usage text, handles
only the `version` and `help` command words, and never constructs the
configuration, the registry, or the CLI.  Because it never loads the
configuration, its exit code cannot depend on whether loading the
configuration would fail; the parameter `configLoadFails` records that
environment fact and is (faithfully) ignored. -/

/-- Exit code of `main(args)` from `__main__.py`. -/
def mainStubExitCode (configLoadFails : Bool) (args : List String) : Nat :=
  match args with
  | [] => 0
  | cmd :: _ =>
      let command := asciiLower cmd
      if command = "version" ∨ command = "-v" ∨ command = "--version" then 0
      else if command = "help" ∨ command = "-h" ∨ command = "--help" then 0
      else 1

/-- Modelled from the spec (§4.13 "Process entry point"), for comparison with
the code: the spec's entry point loads the configuration (load failure →
exit 1) and otherwise delegates to the CLI dispatch, returning its exit
code. -/
def specEntryPointExitCode (configLoadFails : Bool) (cliExitCode : Nat) : Nat :=
  if configLoadFails then 1 else cliExitCode

/-! ## C1 — core/session.py: SessionManager

The sessions file is embedded as `SessionsData`; `Storage` I/O always
succeeds in this model (the claim is about a well-formed sessions file).
The fresh uuid and the current time are passed in as parameters. -/

/-- One record of the `sessions` list in `sessions.json`. -/
structure SessionRecord where
  id : String
  start_time : String
  end_time : Option String
  description : String
  duration : Option Nat
  summary : Option String
  next_action : Option String
  branch : Option String
  last_commit : Option String
  snapshot_file : Option String
  deriving DecidableEq, Repr

/-- Contents of a project's `sessions.json`. -/
structure SessionsData where
  sessions : List SessionRecord
  active_session : Option String
  deriving DecidableEq, Repr

/-- Translation of `SessionManager.get_active` (core/session.py lines
140-162): a falsy (`None` or empty) `active_session` id means no active
session; otherwise the first session with that id, or `None` when the id
is dangling. -/
def get_active (data : SessionsData) : Option SessionRecord :=
  match data.active_session with
  | none => none
  | some activeId =>
      if activeId = "" then none
      else data.sessions.find? (fun s => s.id == activeId)

/-- Translation of `SessionManager.start` (core/session.py lines 48-92).
Returns the resulting file state together with the started record or the
`SessionError` message; on the error path the file state is the input state,
because the source raises before any `save_sessions_data` call. -/
def SessionManager.start (data : SessionsData) (newId nowTime description : String) :
    SessionsData × Except String SessionRecord :=
  match get_active data with
  | some active =>
      (data, .error ("Сеанс уже активен (начат в " ++ active.start_time ++
        "). Завершите его перед началом нового."))
  | none =>
      let session : SessionRecord :=
        ⟨newId, nowTime, none, description, none, none, none, none, none, none⟩
      (⟨data.sessions ++ [session], some newId⟩, .ok session)

/-! ## C3, C4 — core/config.py and core/project_registry.py

`GlobalConfig` state is embedded as an association list in insertion order
(a Python dict with unique keys); `save()` always succeeds in this model.
Filesystem-dependent checks (`is_valid_project_path`,
`normalize_project_path`) and the clock are supplied by an `FsEnv`. -/

/-- One registered project of the global configuration. -/
structure ProjectInfo where
  name : String
  path : String
  aliasName : Option String
  created_at : String
  last_used : String
  deriving DecidableEq, Repr

/-- In-memory state of `GlobalConfig`: `current_project` and the ordered
`projects` mapping. -/
structure GlobalConfigState where
  current_project : Option String
  projects : List (String × ProjectInfo)
  deriving DecidableEq, Repr

/-- Environment of filesystem- and clock-dependent helpers from
`utils/paths.py` used by `GlobalConfig`. -/
structure FsEnv where
  is_valid_project_path : String → Bool
  normalize_project_path : String → String
  now : String

/-- Python `str.isalnum()` restricted to ASCII letters and digits (project
names in the claims are ASCII): non-empty and every character alphanumeric. -/
def pyIsAlnumStr (s : String) : Bool :=
  s ≠ "" && s.toList.all (fun c => c.isAlpha || c.isDigit)

/-- Python `name.replace("-", "").replace("_", "")`. -/
def stripSeparators (s : String) : String :=
  String.mk (s.toList.filter (fun c => c ≠ '-' ∧ c ≠ '_'))

/-- The name/alias validation of `GlobalConfig.add_project`. -/
def validProjectName (name : String) : Bool :=
  pyIsAlnumStr (stripSeparators name)

/-- Dictionary lookup `projects[name]` / `name in projects`. -/
def lookupProject (projects : List (String × ProjectInfo)) (name : String) :
    Option ProjectInfo :=
  (projects.find? (fun p => p.1 == name)).map (fun p => p.2)

/-- Python truthiness of the optional `alias` argument (`if alias:`). -/
def aliasTruthy (a : Option String) : Bool :=
  match a with
  | none => false
  | some s => s ≠ ""

/-- Translation of `GlobalConfig.add_project` (core/config.py lines 135-192).
Returns the resulting configuration state and either the boolean result or
the `ConfigError` message; every error path leaves the state unchanged
(the source raises before mutating `self.projects`). -/
def GlobalConfig.add_project (env : FsEnv) (cfg : GlobalConfigState)
    (name path : String) (al : Option String) :
    GlobalConfigState × Except String Bool :=
  if name = "" ∨ pyStrip name = "" then
    (cfg, .error "Имя проекта не может быть пустым")
  else if ¬ validProjectName name then
    (cfg, .error "Имя проекта должно содержать только буквенно-цифровые символы, дефисы и подчеркивания")
  else if (lookupProject cfg.projects name).isSome then
    (cfg, .ok false)
  else if ¬ env.is_valid_project_path path then
    (cfg, .error ("Невалидный путь проекта: " ++ path ++ " (должен быть существующей директорией)"))
  else if aliasTruthy al ∧ ¬ validProjectName (al.getD "") then
    (cfg, .error "Псевдоним проекта должен содержать только буквенно-цифровые символы, дефисы и подчеркивания")
  else
    match (if aliasTruthy al then cfg.projects.find? (fun p => p.2.aliasName == al) else none) with
    | some conflicting =>
        (cfg, .error ("Псевдоним '" ++ al.getD "" ++ "' уже используется проектом '" ++
          conflicting.1 ++ "'"))
    | none =>
        (⟨cfg.current_project,
          cfg.projects ++ [(name, ⟨name, env.normalize_project_path path, al, env.now, env.now⟩)]⟩,
         .ok true)

/-- Translation of `GlobalConfig.remove_project` (core/config.py lines
194-214): exact-name removal, clearing `current_project` when it pointed at
the removed name. -/
def GlobalConfig.remove_project (cfg : GlobalConfigState) (name : String) :
    GlobalConfigState × Bool :=
  if (lookupProject cfg.projects name).isNone then (cfg, false)
  else
    (⟨if cfg.current_project = some name then none else cfg.current_project,
      cfg.projects.filter (fun p => p.1 ≠ name)⟩,
     true)

/-- Translation of `GlobalConfig.update_last_used` (core/config.py lines
237-252). -/
def GlobalConfig.update_last_used (env : FsEnv) (cfg : GlobalConfigState) (name : String) :
    GlobalConfigState × Bool :=
  if (lookupProject cfg.projects name).isNone then (cfg, false)
  else
    (⟨cfg.current_project,
      cfg.projects.map (fun p =>
        if p.1 = name then (p.1, ⟨p.2.name, p.2.path, p.2.aliasName, p.2.created_at, env.now⟩) else p)⟩,
     true)

/-- Translation of `GlobalConfig.set_current_project` (core/config.py lines
254-273). -/
def GlobalConfig.set_current_project (env : FsEnv) (cfg : GlobalConfigState)
    (name : Option String) : GlobalConfigState × Bool :=
  match name with
  | some n =>
      if (lookupProject cfg.projects n).isNone then (cfg, false)
      else
        ((GlobalConfig.update_last_used env ⟨some n, cfg.projects⟩ n).1, true)
  | none => (⟨none, cfg.projects⟩, true)

/-- The two exception kinds that `ProjectRegistry.add` can raise. -/
inductive RegistryError where
  | configError (msg : String)
  | projectError (msg : String)
  deriving DecidableEq, Repr

/-- The `Project` instance returned by `ProjectRegistry.add`. -/
structure ProjectHandle where
  name : String
  path : String
  deriving DecidableEq, Repr

/-- Translation of `ProjectRegistry.add` (core/project_registry.py lines
32-76).  `ensure_structure_fails = some m` models `project.ensure_structure()`
raising an exception with message `m`; `none` models success.  Returns the
resulting configuration state and the result or raised error. -/
def ProjectRegistry.add (env : FsEnv) (cfg : GlobalConfigState) (name path : String)
    (al : Option String) (set_as_current : Bool) (ensure_structure_fails : Option String) :
    GlobalConfigState × Except RegistryError ProjectHandle :=
  match GlobalConfig.add_project env cfg name path al with
  | (cfg1, .error msg) => (cfg1, .error (.configError msg))
  | (cfg1, .ok false) =>
      (cfg1, .error (.configError ("Project '" ++ name ++ "' already exists")))
  | (cfg1, .ok true) =>
      match ensure_structure_fails with
      | some m =>
          ((GlobalConfig.remove_project cfg1 name).1,
           .error (.projectError ("Failed to create project structure: " ++ m)))
      | none =>
          if set_as_current then
            ((GlobalConfig.set_current_project env cfg1 (some name)).1, .ok ⟨name, path⟩)
          else
            (cfg1, .ok ⟨name, path⟩)

/-! ## C2 — core/context.py: _format_snapshot and _parse_snapshot

Python strings are embedded as `List Char`.  The three patterns of
`_parse_snapshot` —

* `## 📝 Summary\s*\n\s*\n(.+?)(?:\n\n##|\Z)` with DOTALL,
* `## 🎯 Next Action\s*\n\s*\n(.+?)(?:\n\n##|\Z)` with DOTALL,
* `\*\*Session ID:\*\* (.+)` —

are embedded with `re.search`'s leftmost-match backtracking semantics: the
scan tries every start position left to right; at a position the header must
match literally, then `\s*\n\s*\n` is tried with each `\s*` greedy (longest
first), and the lazy `(.+?)` takes the shortest non-empty stretch followed
by `\n\n##` or the end of the text (`\Z`). -/

/-- The regex trailer `\n\n##` of the two section patterns. -/
def nnhhL : List Char := ['\n', '\n', '#', '#']

/-- Length of the maximal whitespace run at the head of the text (the set of
lengths `\s*` can consume is exactly `0..wsRunLen`). -/
def wsRunLen : List Char → Nat
  | [] => 0
  | c :: t => if isPySpace c then wsRunLen t + 1 else 0

/-- All ways `\s*\n\s*\n` can match at the head of `s`, as consumed lengths
in the backtracking engine's preference order (first `\s*` longest first,
then second `\s*` longest first). -/
def gapCandidates (s : List Char) : List Nat :=
  ((List.range (wsRunLen s + 1)).reverse).flatMap (fun a =>
    if s.get? a = some '\n' then
      ((List.range (wsRunLen (s.drop (a + 1)) + 1)).reverse).filterMap (fun b =>
        if (s.drop (a + 1)).get? b = some '\n' then some (a + 1 + b + 1) else none)
    else [])

/-- The lazy group `(.+?)(?:\n\n##|\Z)` after at least one character has been
consumed into `acc`: stop as soon as the remaining text starts with `\n\n##`
or is exhausted, else consume one more character. -/
def lazyCaptureFrom : List Char → List Char → Option (List Char)
  | acc, [] => some acc
  | acc, c :: t =>
      if chPre nnhhL (c :: t) then some acc
      else lazyCaptureFrom (acc ++ [c]) t

/-- The lazy group `(.+?)(?:\n\n##|\Z)`: consumes at least one character. -/
def lazyCapture : List Char → Option (List Char)
  | [] => none
  | c :: t => lazyCaptureFrom [c] t

/-- Try the whole section pattern at the current position: literal header,
then the gap, then the lazy capture, backtracking through the gap choices. -/
def matchFieldAt (hdr s : List Char) : Option (List Char) :=
  if chPre hdr s then
    (gapCandidates (s.drop hdr.length)).findSome?
      (fun g => lazyCapture ((s.drop hdr.length).drop g))
  else none

/-- Embedding of `re.search` for a section pattern: first position, scanning left to
right, where the whole pattern matches; result is the captured group. -/
def searchField (hdr : List Char) : List Char → Option (List Char)
  | [] => matchFieldAt hdr []
  | c :: t =>
      match matchFieldAt hdr (c :: t) with
      | some cap => some cap
      | none => searchField hdr t

/-- Literal part of the session-id pattern. -/
def sessionIdLabel : List Char := "**Session ID:** ".toList

/-- The session-id pattern at the current position: the literal label, then
the greedy `(.+)` — the maximal non-empty run of non-newline characters. -/
def matchSessionIdAt (s : List Char) : Option (List Char) :=
  if chPre sessionIdLabel s then
    let cap := (s.drop sessionIdLabel.length).takeWhile (fun c => c ≠ '\n')
    if cap.isEmpty then none else some cap
  else none

/-- Embedding of `re.search` for the session-id pattern. -/
def searchSessionId : List Char → Option (List Char)
  | [] => matchSessionIdAt []
  | c :: t =>
      match matchSessionIdAt (c :: t) with
      | some cap => some cap
      | none => searchSessionId t

/-- Header literal of the summary pattern. -/
def sumHdr : List Char := "## 📝 Summary".toList

/-- Header literal of the next-action pattern. -/
def actHdr : List Char := "## 🎯 Next Action".toList

/-- The record built by `_parse_snapshot` (absent key = field not matched). -/
structure ParsedSnapshot where
  session_id : Option (List Char)
  summary : Option (List Char)
  next_action : Option (List Char)
  deriving DecidableEq, Repr

/-- Translation of `ContextManager._parse_snapshot` (core/context.py lines
300-335): the session id is captured as-is; the summary and next-action
captures are `.strip()`ed. -/
def parse_snapshot (content : List Char) : ParsedSnapshot :=
  ⟨searchSessionId content,
   (searchField sumHdr content).map pyStripL,
   (searchField actHdr content).map pyStripL⟩

/-- Python truthiness of an optional string field of `git_info`/`test_info`. -/
def optTruthy (o : Option (List Char)) : Bool :=
  match o with
  | none => false
  | some s => !s.isEmpty

/-- The `git_info` dictionary accepted by `_format_snapshot`. -/
structure GitInfoC where
  branch : Option (List Char)
  last_commit : Option (List Char)
  uncommitted_changes : Option (List Char)
  has_changes : Option Bool

/-- The `test_info` dictionary accepted by `_format_snapshot`. -/
structure TestInfoC where
  summary : Option (List Char)

/-- The git block appended by `_format_snapshot` when `git_info` is truthy. -/
def gitSection (g : GitInfoC) : List Char :=
  "\n## 🌿 Git Status\n\n".toList
  ++ (if optTruthy g.branch then
        "- **Branch:** `".toList ++ g.branch.getD [] ++ "`\n".toList
      else [])
  ++ (if optTruthy g.last_commit then
        "- **Last Commit:** `".toList ++ g.last_commit.getD [] ++ "`\n".toList
      else [])
  ++ (if optTruthy g.uncommitted_changes then
        "- **Uncommitted Changes:**\n```\n".toList ++ g.uncommitted_changes.getD [] ++
          "\n```\n".toList
      else if g.has_changes = some false then
        "- **Status:** Working directory clean ✅\n".toList
      else [])
  ++ "\n---\n".toList

/-- The test block appended by `_format_snapshot` when `test_info` is truthy. -/
def testSection (t : TestInfoC) : List Char :=
  "\n## 🧪 Test Status\n\n".toList
  ++ (if optTruthy t.summary then t.summary.getD [] ++ "\n".toList else [])
  ++ "\n---\n".toList

/-- Translation of `ContextManager._format_snapshot` (core/context.py lines
210-298) for a completed-session record, whose dictionary holds all of
`id`/`start_time`/`end_time`/`description` as strings and `duration` as an
integer (the situation in which `save_snapshot` is called); `created` is the
generated timestamp. -/
def formatSnapshot (created id start_time end_time description : List Char)
    (duration : Nat) (summary next_action : List Char)
    (git_info : Option GitInfoC) (test_info : Option TestInfoC) : List Char :=
  "# Session Context Snapshot\n\n**Created:** ".toList ++ created
  ++ "  \n**Session ID:** ".toList ++ id
  ++ "\n\n---\n\n## 📋 Session Info\n\n- **Started:** ".toList ++ start_time
  ++ "\n- **Ended:** ".toList ++ end_time
  ++ "\n- **Duration:** ".toList ++ (ctxFormatDuration duration).toList
  ++ "\n- **Description:** ".toList ++ description
  ++ "\n\n---\n\n## 📝 Summary\n\n".toList
  ++ (if summary.isEmpty then "_No summary provided_".toList else summary)
  ++ "\n\n---\n\n## 🎯 Next Action\n\n".toList
  ++ (if next_action.isEmpty then "_No next action specified_".toList else next_action)
  ++ "\n\n---\n".toList
  ++ (match git_info with
      | some g => gitSection g
      | none => [])
  ++ (match test_info with
      | some t => testSection t
      | none => [])
  ++ "\n## 💡 Notes\n\n- Use this snapshot to quickly restore context\n- Review Next Action before starting work\n- Check git status for any uncommitted work\n".toList

/-! ## C8, C10 — integrations/tests.py: TestsIntegration

Subprocess results are environment inputs: `pytest_available` models the
(cached) result of `is_pytest_available`; a run outcome of `none` models a
launch failure or timeout (the `except` paths), while `some` carries the
exit code and captured stdout. -/

/-- The record built by `get_coverage_info` on its non-`None` paths. -/
structure CoverageInfo where
  available : Bool
  percentage : Option Nat
  output : Option String
  deriving DecidableEq, Repr

/-- Numeric value of a digit run. -/
def digitsToNat (l : List Char) : Nat :=
  l.foldl (fun acc c => acc * 10 + (c.toNat - '0'.toNat)) 0

/-- Matching the regex `TOTAL\s+\d+\s+\d+\s+(\d+)%` at the head of the text:
the literal `TOTAL`, three whitespace-separated digit runs, a percent sign
after the third run, whose value is the captured group. -/
def matchCoverageAt (l : List Char) : Option Nat :=
  if chPre "TOTAL".toList l then
    let r1 := l.drop 5
    if (r1.takeWhile isPySpace).isEmpty then none else
    let r2 := r1.dropWhile isPySpace
    if (r2.takeWhile Char.isDigit).isEmpty then none else
    let r3 := r2.dropWhile Char.isDigit
    if (r3.takeWhile isPySpace).isEmpty then none else
    let r4 := r3.dropWhile isPySpace
    if (r4.takeWhile Char.isDigit).isEmpty then none else
    let r5 := r4.dropWhile Char.isDigit
    if (r5.takeWhile isPySpace).isEmpty then none else
    let r6 := r5.dropWhile isPySpace
    let d3 := r6.takeWhile Char.isDigit
    if d3.isEmpty then none else
    match r6.dropWhile Char.isDigit with
    | '%' :: _ => some (digitsToNat d3)
    | _ => none
  else none

/-- Leftmost search for the coverage `TOTAL` pattern, as `re.search` does. -/
def searchCoverageTotal : List Char → Option Nat
  | [] => matchCoverageAt []
  | c :: t =>
      match matchCoverageAt (c :: t) with
      | some p => some p
      | none => searchCoverageTotal t

/-- Translation of `TestsIntegration.get_coverage_info` (integrations/tests.py
lines 247-280).  `runStdout = none` models the subprocess raising
(`SubprocessError`/`OSError`, including timeout); `some out` models a
completed run with stdout `out`. -/
def get_coverage_info (pytest_available : Bool) (runStdout : Option String) :
    Option CoverageInfo :=
  if ¬ pytest_available then none
  else
    match runStdout with
    | none => some ⟨false, none, none⟩
    | some out =>
        match searchCoverageTotal out.toList with
        | some pct => some ⟨true, some pct, some out⟩
        | none => some ⟨false, none, none⟩

/-- Translation of `TestsIntegration.collect_tests` (integrations/tests.py
lines 151-176).  `run = none` models the collection subprocess raising;
`some (rc, out)` models a completed run with exit code `rc` and stdout
`out`; only exit codes 0 and 5 yield a (stripped) result. -/
def collect_tests (pytest_available : Bool) (run : Option (Int × String)) :
    Option String :=
  if ¬ pytest_available then none
  else
    match run with
    | none => none
    | some (rc, out) => if rc = 0 ∨ rc = 5 then some (pyStrip out) else none

/-- Python `content.split('\n')`. -/
def pyLines (s : String) : List String :=
  s.splitOn "\n"

/-- The line filter of `get_test_summary`:
`'test' in line.lower() and any(c.isdigit() for c in line)`. -/
def summaryLineMatch (line : String) : Bool :=
  containsSub "test".toList (asciiLower line).toList &&
    line.toList.any Char.isDigit

/-- Translation of `TestsIntegration.get_test_summary` (integrations/tests.py
lines 178-196): absent when pytest is unavailable; the first matching
collection line (stripped) when the collection output is truthy and one
matches; otherwise the literal "Tests available". -/
def get_test_summary (pytest_available : Bool) (run : Option (Int × String)) :
    Option String :=
  if ¬ pytest_available then none
  else
    let collection := collect_tests pytest_available run
    let truthy : Bool := match collection with
      | some s => s != ""
      | none => false
    if truthy then
      match (pyLines (collection.getD "")).find? summaryLineMatch with
      | some line => some (pyStrip line)
      | none => some "Tests available"
    else some "Tests available"

/-! ## Sample data used by witness theorems -/

/-- Sample active session record (no `end_time`). -/
def sampleActiveRecord : SessionRecord :=
  ⟨"id-1", "2025-01-15T10:00:00", none, "", none, none, none, none, none, none⟩

/-- Sample sessions file whose `active_session` points at `sampleActiveRecord`. -/
def sampleSessionsData : SessionsData :=
  ⟨[sampleActiveRecord], some "id-1"⟩

/-- Sample environment whose path validation always fails. -/
def sampleEnvBadPath : FsEnv :=
  ⟨fun _ => false, fun p => p, "2025-01-15T00:00:00"⟩

/-- Sample environment whose path validation always succeeds. -/
def sampleEnvOk : FsEnv :=
  ⟨fun _ => true, fun p => p, "2025-01-15T00:00:00"⟩

/-- Sample registered project. -/
def sampleInfo : ProjectInfo :=
  ⟨"proj", "/p", none, "t0", "t0"⟩

/-- Sample configuration with one registered project `"proj"`. -/
def sampleCfg : GlobalConfigState :=
  ⟨none, [("proj", sampleInfo)]⟩

/-- Sample empty configuration. -/
def emptyCfg : GlobalConfigState :=
  ⟨none, []⟩

/-! # Theorems -/

/-! ## Association-list helper lemmas -/

/-- Lookup misses exactly when no entry carries the key. -/
theorem lookupProject_eq_none_iff (l : List (String × ProjectInfo)) (n : String) :
    lookupProject l n = none ↔ ∀ p ∈ l, p.1 ≠ n := by
  simp [lookupProject, List.find?_eq_none]

/-- Lookup over an append whose left part misses the key. -/
theorem lookupProject_append_of_none (l1 l2 : List (String × ProjectInfo)) (n : String)
    (h : lookupProject l1 n = none) :
    lookupProject (l1 ++ l2) n = lookupProject l2 n := by
  induction l1 with
  | nil => rfl
  | cons p t ih =>
      rw [lookupProject_eq_none_iff] at h
      have hp : ¬ (p.1 == n) = true := by
        simp
        exact h p (by simp)
      have ht : lookupProject t n = none := by
        rw [lookupProject_eq_none_iff]
        intro q hq
        exact h q (by simp [hq])
      simp only [List.cons_append, lookupProject, List.find?] at *
      rw [Bool.not_eq_true] at hp
      rw [hp]
      exact ih ht

/-- Filtering out a key that does not occur leaves the list unchanged. -/
theorem filter_ne_of_lookup_none (l : List (String × ProjectInfo)) (n : String)
    (h : lookupProject l n = none) :
    l.filter (fun p => p.1 ≠ n) = l := by
  rw [lookupProject_eq_none_iff] at h
  apply List.filter_eq_self.mpr
  intro p hp
  simp [h p hp]

/-! ## C5 -/

/-- C5: the claim states the exact literal table `format_duration(0) = "0s"`,
`(59) = "59s"`, `(60) = "1m"`, `(90) = "1m 30s"`, `(3600) = "1h"`,
`(5400) = "1h 30m"`.  The code in `utils/formatters.py` instead renders the
Cyrillic suffixes "с"/"м"/"ч", contradicting the repository's own test suite
(`tests/tests_utils/test_formatters.py` asserts the Latin table).  This
theorem evaluates the code at the failing inputs. -/
theorem C5_format_duration_cyrillic_table :
    format_duration 0 = "0с" ∧ format_duration 0 ≠ "0s" ∧
    format_duration 59 = "59с" ∧ format_duration 59 ≠ "59s" ∧
    format_duration 60 = "1м" ∧ format_duration 60 ≠ "1m" ∧
    format_duration 90 = "1м 30с" ∧ format_duration 90 ≠ "1m 30s" ∧
    format_duration 3600 = "1ч" ∧ format_duration 3600 ≠ "1h" ∧
    format_duration 5400 = "1ч 30м" ∧ format_duration 5400 ≠ "1h 30m" := by
  decide

/-! ## C9 -/

/-- C9 counterexample: the claim asserts that for every `max_length`, a string
longer than `max_length` truncates to total length exactly `max_length`.
At `s = "abcdef"`, `max_length = 2`, suffix `"..."`, the code returns
`"abcde..."` of length 8, not 2. -/
theorem C9_truncate_counterexample :
    ¬ (("abcdef".toList.length : Int) ≤ 2) ∧
    truncate_string "abcdef".toList 2 "...".toList = "abcde...".toList ∧
    (truncate_string "abcdef".toList 2 "...".toList).length ≠ 2 := by
  decide

/-- C9 amended: provided `max_length` is at least the suffix length (3 for the
default suffix `"..."`), `truncate_string` returns the string unchanged when
it fits, and otherwise returns a string of total length exactly `max_length`
ending with the suffix. -/
theorem C9_truncate_string_spec (s suffix : List Char) (m : Int)
    (hm : (suffix.length : Int) ≤ m) :
    ((s.length : Int) ≤ m → truncate_string s m suffix = s) ∧
    (m < (s.length : Int) →
      ((truncate_string s m suffix).length : Int) = m ∧
      ∃ p, truncate_string s m suffix = p ++ suffix) := by
  constructor
  · intro h
    simp [truncate_string, h]
  · intro h
    have hnot : ¬ ((s.length : Int) ≤ m) := by omega
    have h0 : 0 ≤ m - (suffix.length : Int) := by omega
    have hle : (m - (suffix.length : Int)).toNat ≤ s.length := by omega
    constructor
    · simp only [truncate_string, if_neg hnot, pySliceTo, if_pos h0]
      rw [List.length_append, List.length_take]
      omega
    · refine ⟨pySliceTo s (m - (suffix.length : Int)), ?_⟩
      simp [truncate_string, hnot]

/-- C9 witness: instantiates the amended theorem at `s = "abcdefgh"`,
`max_length = 5`, suffix `"..."`. -/
theorem C9_truncate_string_spec_witness :
    ((truncate_string "abcdefgh".toList 5 "...".toList).length : Int) = 5 :=
  ((C9_truncate_string_spec "abcdefgh".toList "...".toList 5 (by decide)).2 (by decide)).1

/-! ## C6 -/

/-- Helper: the deletion loop deletes exactly the files for which deletion
succeeds and counts them. -/
theorem deleteSnapLoop_eq_filter {α : Type} (ok : α → Bool) (l : List α) :
    deleteSnapLoop ok l = ((l.filter ok).length, l.filter ok) := by
  induction l with
  | nil => rfl
  | cons a t ih =>
      by_cases h : ok a
      · simp [deleteSnapLoop, ih, h, List.filter_cons]
      · simp [deleteSnapLoop, ih, h, List.filter_cons]

/-- C6 counterexample: the claim asserts the behaviour for every `keep ≥ 0`;
at `keep = 0` with one snapshot and every deletion succeeding, the code
deletes nothing and returns 0 (because the Python slice `snapshots[:-0]` is
empty), instead of deleting the single snapshot and returning 1. -/
theorem C6_delete_counterexample :
    0 < (["20250101_000000.md"] : List String).length ∧
    delete_old_snapshots ["20250101_000000.md"] 0 (fun _ => true) = (0, []) ∧
    delete_old_snapshots ["20250101_000000.md"] 0 (fun _ => true) ≠
      (1, ["20250101_000000.md"]) := by
  refine ⟨by decide, rfl, by decide⟩

/-- C6 amended: for every `keep ≥ 1`, `delete_old_snapshots` deletes nothing
and returns 0 when there are at most `keep` snapshots, and otherwise deletes
exactly those of the `n - keep` oldest snapshots whose deletion succeeds,
returning the number actually deleted — `n - keep` when every deletion
succeeds. -/
theorem C6_delete_old_snapshots_spec (snapshots : List String) (keep : Nat)
    (ok : String → Bool) (hk : 1 ≤ keep) :
    (snapshots.length ≤ keep → delete_old_snapshots snapshots keep ok = (0, [])) ∧
    (keep < snapshots.length →
      (delete_old_snapshots snapshots keep ok).2 =
        (snapshots.take (snapshots.length - keep)).filter ok ∧
      (delete_old_snapshots snapshots keep ok).1 =
        ((snapshots.take (snapshots.length - keep)).filter ok).length ∧
      ((∀ x ∈ snapshots.take (snapshots.length - keep), ok x = true) →
        delete_old_snapshots snapshots keep ok =
          (snapshots.length - keep, snapshots.take (snapshots.length - keep)))) := by
  constructor
  · intro h
    simp [delete_old_snapshots, h]
  · intro h
    have hnot : ¬ (snapshots.length ≤ keep) := by omega
    have hkz : keep ≠ 0 := by omega
    have hdef : delete_old_snapshots snapshots keep ok =
        (((snapshots.take (snapshots.length - keep)).filter ok).length,
         (snapshots.take (snapshots.length - keep)).filter ok) := by
      simp [delete_old_snapshots, hnot, pySliceDropLast, hkz, deleteSnapLoop_eq_filter]
    refine ⟨by simp [hdef], by simp [hdef], ?_⟩
    intro hall
    have hfilter : (snapshots.take (snapshots.length - keep)).filter ok =
        snapshots.take (snapshots.length - keep) := List.filter_eq_self.mpr hall
    have hlen : (snapshots.take (snapshots.length - keep)).length =
        snapshots.length - keep := by
      rw [List.length_take]
      omega
    rw [hdef, hfilter, hlen]

/-- C6 witness: instantiates the amended theorem with 3 snapshots, `keep = 2`,
and all deletions succeeding. -/
theorem C6_delete_old_snapshots_spec_witness :
    delete_old_snapshots ["a.md", "b.md", "c.md"] 2 (fun _ => true) = (1, ["a.md"]) :=
  (((C6_delete_old_snapshots_spec ["a.md", "b.md", "c.md"] 2 (fun _ => true)
      (by decide)).2 (by decide)).2.2 (by decide))

/-! ## C7 -/

/-- C7 counterexample: the claim asserts that `main()` constructs and loads
the configuration and that configuration-load failure yields exit code 1.
The `main` in `__main__.py` is a placeholder that never touches the
configuration: in an environment where loading the configuration fails it
still returns 0 for the argument list `["version"]`, while the specified
entry point would return 1. -/
theorem C7_main_counterexample :
    mainStubExitCode true ["version"] = 0 ∧
    specEntryPointExitCode true 0 = 1 ∧
    mainStubExitCode true ["version"] ≠ specEntryPointExitCode true 0 := by
  decide

/-- C7 amended: `main()` is a placeholder.  Its exit code ignores whether
configuration loading would fail (it never constructs the configuration,
registry, or CLI), it is never the interruption code 130, and it is 0
exactly when the argument list is empty or its first word lowercases to one
of `version`, `-v`, `--version`, `help`, `-h`, `--help`; every other command
word yields exit code 1 with a "not implemented" message. -/
theorem C7_main_stub_spec (b b' : Bool) (args : List String) :
    mainStubExitCode b args = mainStubExitCode b' args ∧
    mainStubExitCode b args ≠ 130 ∧
    (mainStubExitCode b args = 0 ↔
      args = [] ∨ ∃ c rest, args = c :: rest ∧
        (asciiLower c = "version" ∨ asciiLower c = "-v" ∨ asciiLower c = "--version" ∨
         asciiLower c = "help" ∨ asciiLower c = "-h" ∨ asciiLower c = "--help")) := by
  match args with
  | [] => simp [mainStubExitCode]
  | cmd :: rest =>
      refine ⟨rfl, ?_, ?_⟩
      · simp only [mainStubExitCode]
        split <;> simp_all
        split <;> simp_all
      · constructor
        · intro h
          right
          refine ⟨cmd, rest, rfl, ?_⟩
          by_cases h1 : asciiLower cmd = "version" ∨ asciiLower cmd = "-v" ∨
              asciiLower cmd = "--version"
          · tauto
          · by_cases h2 : asciiLower cmd = "help" ∨ asciiLower cmd = "-h" ∨
                asciiLower cmd = "--help"
            · tauto
            · simp only [mainStubExitCode] at h
              rw [if_neg h1, if_neg h2] at h
              exact absurd h (by decide)
        · intro h
          rcases h with h | ⟨c, r, hcr, hc⟩
          · exact absurd h (List.cons_ne_nil cmd rest)
          · injection hcr with hc1 hc2
            subst hc1
            simp only [mainStubExitCode]
            by_cases h1 : asciiLower cmd = "version" ∨ asciiLower cmd = "-v" ∨
                asciiLower cmd = "--version"
            · rw [if_pos h1]
            · have h2 : asciiLower cmd = "help" ∨ asciiLower cmd = "-h" ∨
                  asciiLower cmd = "--help" := by tauto
              rw [if_neg h1, if_pos h2]

/-! ## C1 -/

/-- C1: for every sessions file whose `active_session` points at a record with
no `end_time`, `SessionManager.start` raises a `SessionError` whose message
includes the active session's start time, and leaves the sessions file
unchanged: `get_active` afterwards still returns the original active session
and no new record is appended. -/
theorem C1_start_fails_when_active (data : SessionsData) (rec : SessionRecord)
    (newId nowTime description : String)
    (hact : get_active data = some rec) (hend : rec.end_time = none) :
    (SessionManager.start data newId nowTime description).1 = data ∧
    (SessionManager.start data newId nowTime description).1.sessions = data.sessions ∧
    get_active (SessionManager.start data newId nowTime description).1 = some rec ∧
    ∃ pre post, (SessionManager.start data newId nowTime description).2 =
      .error (pre ++ rec.start_time ++ post) := by
  have hs : SessionManager.start data newId nowTime description =
      (data, .error ("Сеанс уже активен (начат в " ++ rec.start_time ++
        "). Завершите его перед началом нового.")) := by
    unfold SessionManager.start
    rw [hact]
  rw [hs]
  exact ⟨rfl, rfl, hact,
    "Сеанс уже активен (начат в ", "). Завершите его перед началом нового.", rfl⟩

/-- C1 witness: instantiates the theorem at a concrete sessions file with one
active record. -/
theorem C1_start_fails_when_active_witness :
    (SessionManager.start sampleSessionsData "id-2" "2025-01-15T11:00:00" "задача").1 =
      sampleSessionsData ∧
    get_active (SessionManager.start sampleSessionsData "id-2" "2025-01-15T11:00:00" "задача").1 =
      some sampleActiveRecord ∧
    ∃ pre post,
      (SessionManager.start sampleSessionsData "id-2" "2025-01-15T11:00:00" "задача").2 =
        .error (pre ++ sampleActiveRecord.start_time ++ post) := by
  have h := C1_start_fails_when_active sampleSessionsData sampleActiveRecord
    "id-2" "2025-01-15T11:00:00" "задача" (by decide) (by decide)
  exact ⟨h.1, h.2.2.1, h.2.2.2⟩

/-! ## C3 -/

/-- C3: for every name/path/alias that passes `GlobalConfig.add_project`'s
validation, if `Project.ensure_structure` then raises, `ProjectRegistry.add`
removes the just-added entry again (the name is no longer registered, and
the registered projects are exactly what they were before) and raises a
`ProjectError`. -/
theorem C3_registry_add_rollback (env : FsEnv) (cfg : GlobalConfigState)
    (name path : String) (al : Option String) (set_cur : Bool) (em : String)
    (hok : (GlobalConfig.add_project env cfg name path al).2 = .ok true) :
    (∃ m, (ProjectRegistry.add env cfg name path al set_cur (some em)).2 =
        .error (.projectError m)) ∧
    lookupProject (ProjectRegistry.add env cfg name path al set_cur (some em)).1.projects
      name = none ∧
    (ProjectRegistry.add env cfg name path al set_cur (some em)).1.projects =
      cfg.projects := by
  have h1 : ¬ (name = "" ∨ pyStrip name = "") := fun h => by
    unfold GlobalConfig.add_project at hok
    rw [if_pos h] at hok
    simp at hok
  have h2 : ¬ ¬ validProjectName name := fun h => by
    unfold GlobalConfig.add_project at hok
    rw [if_neg h1, if_pos h] at hok
    simp at hok
  have h3 : ¬ (lookupProject cfg.projects name).isSome := fun h => by
    unfold GlobalConfig.add_project at hok
    rw [if_neg h1, if_neg h2, if_pos h] at hok
    simp at hok
  have h4 : ¬ ¬ env.is_valid_project_path path := fun h => by
    unfold GlobalConfig.add_project at hok
    rw [if_neg h1, if_neg h2, if_neg h3, if_pos h] at hok
    simp at hok
  have h5 : ¬ (aliasTruthy al ∧ ¬ validProjectName (al.getD "")) := fun h => by
    unfold GlobalConfig.add_project at hok
    rw [if_neg h1, if_neg h2, if_neg h3, if_neg h4, if_pos h] at hok
    simp at hok
  have hlknone : lookupProject cfg.projects name = none := by
    cases hl : lookupProject cfg.projects name with
    | none => rfl
    | some v => exact absurd (by simp [hl]) h3
  cases hfind : (if aliasTruthy al then cfg.projects.find? (fun p => p.2.aliasName == al)
      else none) with
  | some c =>
      exfalso
      unfold GlobalConfig.add_project at hok
      rw [if_neg h1, if_neg h2, if_neg h3, if_neg h4, if_neg h5, hfind] at hok
      simp at hok
  | none =>
      have heq : GlobalConfig.add_project env cfg name path al =
          (⟨cfg.current_project,
            cfg.projects ++
              [(name, ⟨name, env.normalize_project_path path, al, env.now, env.now⟩)]⟩,
           .ok true) := by
        unfold GlobalConfig.add_project
        rw [if_neg h1, if_neg h2, if_neg h3, if_neg h4, if_neg h5, hfind]
      have hlk1 : lookupProject
          (cfg.projects ++
            [(name, ⟨name, env.normalize_project_path path, al, env.now, env.now⟩)]) name =
          some ⟨name, env.normalize_project_path path, al, env.now, env.now⟩ := by
        rw [lookupProject_append_of_none _ _ _ hlknone]
        simp [lookupProject, List.find?]
      have hreg : ProjectRegistry.add env cfg name path al set_cur (some em) =
          ((GlobalConfig.remove_project
              ⟨cfg.current_project,
                cfg.projects ++
                  [(name, ⟨name, env.normalize_project_path path, al, env.now, env.now⟩)]⟩
              name).1,
           .error (.projectError ("Failed to create project structure: " ++ em))) := by
        unfold ProjectRegistry.add
        rw [heq]
      have hrm : (GlobalConfig.remove_project
          ⟨cfg.current_project,
            cfg.projects ++
              [(name, ⟨name, env.normalize_project_path path, al, env.now, env.now⟩)]⟩
          name).1.projects = cfg.projects := by
        unfold GlobalConfig.remove_project
        rw [if_neg (by simp [hlk1])]
        simp only [List.filter_append]
        rw [filter_ne_of_lookup_none _ _ hlknone]
        simp [List.filter]
      refine ⟨⟨"Failed to create project structure: " ++ em, by rw [hreg]⟩, ?_, ?_⟩
      · rw [hreg, hrm, hlknone]
      · rw [hreg, hrm]

/-- C3 witness: instantiates the theorem at an empty configuration, a valid
name/path, and a structure creation that raises with message "disk full". -/
theorem C3_registry_add_rollback_witness :
    (∃ m, (ProjectRegistry.add sampleEnvOk emptyCfg "proj" "/p" none false
        (some "disk full")).2 = .error (.projectError m)) ∧
    (ProjectRegistry.add sampleEnvOk emptyCfg "proj" "/p" none false
        (some "disk full")).1.projects = [] := by
  have h := C3_registry_add_rollback sampleEnvOk emptyCfg "proj" "/p" none false "disk full"
    (by rfl)
  exact ⟨h.1, h.2.2⟩

/-! ## C4 -/

/-- C4: calling `GlobalConfig.add_project` again with an already-registered
(previously validated) name returns `false` without raising and without any
state change, whatever the second path and alias arguments are — and
`ProjectRegistry.add` with that same name turns the `false` into a raised
`ConfigError`. -/
theorem C4_duplicate_add_is_noop (env : FsEnv) (cfg : GlobalConfigState)
    (name : String) (info : ProjectInfo) (path2 : String) (alias2 : Option String)
    (hreg : lookupProject cfg.projects name = some info)
    (hvalid : validProjectName name = true)
    (hstrip : pyStrip name ≠ "") :
    GlobalConfig.add_project env cfg name path2 alias2 = (cfg, .ok false) ∧
    (∀ set_cur esf, ProjectRegistry.add env cfg name path2 alias2 set_cur esf =
      (cfg, .error (.configError ("Project '" ++ name ++ "' already exists")))) := by
  have hne : ¬ (name = "" ∨ pyStrip name = "") := by
    rintro (h | h)
    · subst h
      exact absurd hvalid (by decide)
    · exact hstrip h
  have hnv : ¬ ¬ validProjectName name := by simp [hvalid]
  have hsome : (lookupProject cfg.projects name).isSome := by simp [hreg]
  have hadd : GlobalConfig.add_project env cfg name path2 alias2 = (cfg, .ok false) := by
    unfold GlobalConfig.add_project
    rw [if_neg hne, if_neg hnv, if_pos hsome]
  refine ⟨hadd, ?_⟩
  intro set_cur esf
  unfold ProjectRegistry.add
  rw [hadd]

/-- C4 witness: instantiates the theorem at a configuration already holding
`"proj"`, with a second path that is not even a valid directory. -/
theorem C4_duplicate_add_is_noop_witness :
    GlobalConfig.add_project sampleEnvBadPath sampleCfg "proj" "/nonexistent" none =
      (sampleCfg, .ok false) ∧
    ProjectRegistry.add sampleEnvBadPath sampleCfg "proj" "/nonexistent" none false none =
      (sampleCfg, .error (.configError "Project 'proj' already exists")) := by
  have h := C4_duplicate_add_is_noop sampleEnvBadPath sampleCfg "proj" sampleInfo
    "/nonexistent" none (by decide) (by decide) (by decide)
  exact ⟨h.1, h.2 false none⟩

/-! ## C8 -/

/-- C8 counterexample: the claim states `get_coverage_info` always returns a
record and never returns absent, in particular when pytest is unavailable.
The source's first statement is `if not self.is_pytest_available(): return
None`, so with pytest unavailable it returns `None`. -/
theorem C8_coverage_counterexample :
    get_coverage_info false none = none ∧
    get_coverage_info false (some "TOTAL 100 20 80%") = none := by
  exact ⟨rfl, rfl⟩

/-- C8 amended: `get_coverage_info` returns `None` whenever pytest is
unavailable; with pytest available it always returns a record — with
`available = false` when the coverage run raises or its output has no
TOTAL-percentage line, and `available = true` plus percentage and output
when the TOTAL pattern matches. -/
theorem C8_get_coverage_info_spec (r : Option String) :
    get_coverage_info false r = none ∧
    (get_coverage_info true r).isSome = true ∧
    (r = none → get_coverage_info true r = some ⟨false, none, none⟩) ∧
    (∀ out p, r = some out → searchCoverageTotal out.toList = some p →
      get_coverage_info true r = some ⟨true, some p, some out⟩) ∧
    (∀ out, r = some out → searchCoverageTotal out.toList = none →
      get_coverage_info true r = some ⟨false, none, none⟩) := by
  refine ⟨rfl, ?_, ?_, ?_, ?_⟩
  · cases r with
    | none => rfl
    | some out =>
        simp only [get_coverage_info]
        cases h : searchCoverageTotal out.toList <;> simp [h]
  · intro h
    subst h
    rfl
  · intro out p hr hp
    subst hr
    have hp2 : searchCoverageTotal out.data = some p := hp
    simp [get_coverage_info, hp2]
  · intro out hr hp
    subst hr
    have hp2 : searchCoverageTotal out.data = none := hp
    simp [get_coverage_info, hp2]

/-- C8 witness: instantiates the amended theorem at a run whose output holds
the line `TOTAL 100 20 80%`. -/
theorem C8_get_coverage_info_spec_witness :
    get_coverage_info true (some "TOTAL 100 20 80%") =
      some ⟨true, some 80, some "TOTAL 100 20 80%"⟩ :=
  (C8_get_coverage_info_spec (some "TOTAL 100 20 80%")).2.2.2.1
    "TOTAL 100 20 80%" 80 rfl (by rfl)

/-! ## C10 -/

/-- C10: when pytest is available but test collection yields no result
(`collect_tests` returns absent — collection raised, timed out, or exited
with a code other than 0 or 5 — or returns an empty string),
`get_test_summary` returns the literal "Tests available" rather than
absent; it returns absent exactly when pytest itself is unavailable. -/
theorem C10_get_test_summary_fallback (run : Option (Int × String)) :
    (collect_tests true run = none →
      get_test_summary true run = some "Tests available") ∧
    (collect_tests true run = some "" →
      get_test_summary true run = some "Tests available") ∧
    (run = none → get_test_summary true run = some "Tests available") ∧
    (∀ rc out, run = some (rc, out) → ¬ (rc = 0 ∨ rc = 5) →
      get_test_summary true run = some "Tests available") ∧
    (get_test_summary true run).isSome = true ∧
    get_test_summary false run = none := by
  have hnone : collect_tests true run = none →
      get_test_summary true run = some "Tests available" := by
    intro h
    simp [get_test_summary, h]
  have hempty : collect_tests true run = some "" →
      get_test_summary true run = some "Tests available" := by
    intro h
    simp [get_test_summary, h]
  refine ⟨hnone, hempty, ?_, ?_, ?_, rfl⟩
  · intro h
    subst h
    exact hnone rfl
  · intro rc out hr hrc
    subst hr
    apply hnone
    simp [collect_tests, hrc]
  · cases hc : collect_tests true run with
    | none => simp [hnone hc]
    | some s =>
        by_cases hs : s = ""
        · subst hs
          simp [hempty hc]
        · simp only [get_test_summary, hc]
          cases hf : (pyLines ((some s).getD "")).find? summaryLineMatch <;>
            simp [hf, hs]

/-- C10 witness: instantiates the theorem at a collection run that exited
with code 2 (a collection error). -/
theorem C10_get_test_summary_fallback_witness :
    get_test_summary true (some (2, "boom")) = some "Tests available" :=
  (C10_get_test_summary_fallback (some (2, "boom"))).2.2.2.1 2 "boom" rfl (by decide)

/-! ## C2 helper lemmas -/

/-- A literal is a prefix of itself followed by anything. -/
theorem chPre_self_append (p r : List Char) : chPre p (p ++ r) = true := by
  induction p with
  | nil => rfl
  | cons a t ih => simp [chPre, ih]

/-- A failed position moves the scan one character right. -/
theorem searchField_cons_none (hdr : List Char) (c : Char) (t : List Char)
    (h : matchFieldAt hdr (c :: t) = none) :
    searchField hdr (c :: t) = searchField hdr t := by
  simp [searchField, h]

/-- A `#`-headed pattern cannot match at a non-`#` character. -/
theorem matchFieldAt_cons_ne_hash (h2 : List Char) (c : Char) (t : List Char)
    (hc : c ≠ '#') : matchFieldAt ('#' :: h2) (c :: t) = none := by
  have hch : chPre ('#' :: h2) (c :: t) = false := by
    unfold chPre
    rw [if_neg fun h => hc h.symm]
  simp [matchFieldAt, hch]

/-- The scan skips over a stretch of `#`-free characters. -/
theorem searchField_skip (h2 A B : List Char) (hA : ∀ c ∈ A, c ≠ '#') :
    searchField ('#' :: h2) (A ++ B) = searchField ('#' :: h2) B := by
  induction A with
  | nil => rfl
  | cons a t ih =>
      rw [List.cons_append,
        searchField_cons_none _ _ _ (matchFieldAt_cons_ne_hash h2 a _ (hA a (by simp))),
        ih (fun c hc => hA c (by simp [hc]))]

/-- The scan returns the capture of the first successful position. -/
theorem searchField_found (hdr s cap : List Char)
    (h : matchFieldAt hdr s = some cap) : searchField hdr s = some cap := by
  cases s with
  | nil => simpa [searchField] using h
  | cons c t => simp [searchField, h]

/-- Character shape of the summary header literal. -/
theorem sumHdr_eq : sumHdr = '#' :: '#' :: ' ' :: '📝' :: " Summary".toList := by
  decide

/-- Character shape of the next-action header literal. -/
theorem actHdr_eq : actHdr = '#' :: '#' :: ' ' :: '🎯' :: " Next Action".toList := by
  decide

/-- Neither section header matches at `#` followed by a space (the document
title's `#` and the second `#` of every `## ...` heading). -/
theorem matchFieldAt_hash_space (h2 R : List Char) :
    matchFieldAt ('#' :: '#' :: h2) ('#' :: ' ' :: R) = none := by
  have hch : chPre ('#' :: '#' :: h2) ('#' :: ' ' :: R) = false := by
    simp [chPre]
  simp [matchFieldAt, hch]

/-- The summary header does not match at the `## 📋 Session Info` heading. -/
theorem matchFieldAt_sum_at_clipboard (R : List Char) :
    matchFieldAt sumHdr ('#' :: '#' :: ' ' :: '📋' :: R) = none := by
  have hch : chPre sumHdr ('#' :: '#' :: ' ' :: '📋' :: R) = false := by
    rw [sumHdr_eq]
    simp [chPre]
  unfold matchFieldAt
  rw [hch]
  rfl

/-- The next-action header does not match at the `## 📋 Session Info` heading. -/
theorem matchFieldAt_act_at_clipboard (R : List Char) :
    matchFieldAt actHdr ('#' :: '#' :: ' ' :: '📋' :: R) = none := by
  have hch : chPre actHdr ('#' :: '#' :: ' ' :: '📋' :: R) = false := by
    rw [actHdr_eq]
    simp [chPre]
  unfold matchFieldAt
  rw [hch]
  rfl

/-- The next-action header does not match at the `## 📝 Summary` heading. -/
theorem matchFieldAt_act_at_memo (R : List Char) :
    matchFieldAt actHdr ('#' :: '#' :: ' ' :: '📝' :: R) = none := by
  have hch : chPre actHdr ('#' :: '#' :: ' ' :: '📝' :: R) = false := by
    rw [actHdr_eq]
    simp [chPre]
  unfold matchFieldAt
  rw [hch]
  rfl

/-- On `\n\n` followed by a non-whitespace character, the gap `\s*\n\s*\n`
matches in exactly one way: both `\s*` empty, two characters consumed. -/
theorem gapCandidates_two (x : Char) (r : List Char) (hx : isPySpace x = false) :
    gapCandidates ('\n' :: '\n' :: x :: r) = [2] := by
  have hnl : isPySpace '\n' = true := by decide
  have hxn : ¬ (some x = some '\n') := by
    intro h
    rw [Option.some.injEq] at h
    rw [h] at hx
    rw [hnl] at hx
    exact absurd hx (by decide)
  have h1 : wsRunLen ('\n' :: '\n' :: x :: r) = 2 := by
    simp [wsRunLen, hnl, hx]
  have h2 : wsRunLen (x :: r) = 0 := by
    simp [wsRunLen, hx]
  have h3 : wsRunLen ('\n' :: x :: r) = 1 := by
    simp [wsRunLen, hnl, hx]
  unfold gapCandidates
  rw [h1]
  rw [show (List.range (2 + 1)).reverse = [2, 1, 0] from by decide]
  have hd2 : ('\n' :: '\n' :: x :: r).drop (2 + 1) = r := rfl
  have hd1 : ('\n' :: '\n' :: x :: r).drop (1 + 1) = x :: r := rfl
  have hd0 : ('\n' :: '\n' :: x :: r).drop (0 + 1) = '\n' :: x :: r := rfl
  have hg2 : ('\n' :: '\n' :: x :: r).get? 2 = some x := rfl
  have hg1 : ('\n' :: '\n' :: x :: r).get? 1 = some '\n' := rfl
  have hg0 : ('\n' :: '\n' :: x :: r).get? 0 = some '\n' := rfl
  rw [List.flatMap_cons, List.flatMap_cons, List.flatMap_cons, List.flatMap_nil]
  rw [hg2, if_neg hxn]
  rw [hg1, if_pos rfl, hd1, h2]
  rw [hg0, if_pos rfl, hd0, h3]
  rw [show (List.range (0 + 1)).reverse = [0] from by decide]
  rw [show (List.range (1 + 1)).reverse = [1, 0] from by decide]
  have hgx0 : (x :: r).get? 0 = some x := rfl
  have hgnx1 : ('\n' :: x :: r).get? 1 = some x := rfl
  have hgnx0 : ('\n' :: x :: r).get? 0 = some '\n' := rfl
  simp only [List.filterMap_cons, List.filterMap_nil]
  rw [hgx0, if_neg hxn, hgnx1, if_neg hxn, hgnx0, if_pos rfl]
  rfl

/-- Running the lazy capture through a newline-free stretch `s` followed by
the template's `\n\n---\n\n##...` tail: the capture extends to the end of
`s` plus the blank line and the `---` rule, and stops right before the next
heading. -/
theorem lazyCaptureFrom_run (s : List Char) (hs : ∀ c ∈ s, c ≠ '\n') :
    ∀ (acc R : List Char),
      lazyCaptureFrom acc
        (s ++ ('\n' :: '\n' :: '-' :: '-' :: '-' :: '\n' :: '\n' :: '#' :: '#' :: R)) =
      some (acc ++ s ++ ['\n', '\n', '-', '-', '-']) := by
  induction s with
  | nil =>
      intro acc R
      simp only [List.nil_append, List.append_nil]
      rw [lazyCaptureFrom, if_neg (by simp [nnhhL, chPre])]
      rw [lazyCaptureFrom, if_neg (by simp [nnhhL, chPre])]
      rw [lazyCaptureFrom, if_neg (by simp [nnhhL, chPre])]
      rw [lazyCaptureFrom, if_neg (by simp [nnhhL, chPre])]
      rw [lazyCaptureFrom, if_neg (by simp [nnhhL, chPre])]
      rw [lazyCaptureFrom, if_pos (by simp [nnhhL, chPre])]
      simp
  | cons c t ih =>
      intro acc R
      have hc : c ≠ '\n' := hs c (by simp)
      rw [List.cons_append, lazyCaptureFrom,
        if_neg (by
          have : chPre nnhhL (c :: (t ++ ('\n' :: '\n' :: '-' :: '-' :: '-' :: '\n' ::
              '\n' :: '#' :: '#' :: R))) = false := by
            unfold nnhhL chPre
            rw [if_neg fun h => hc h.symm]
          simp [this])]
      rw [ih (fun x hx => hs x (by simp [hx])) (acc ++ [c]) R]
      simp

/-- Python `strip()` is the identity on a string whose first and last characters are
not whitespace. -/
theorem pyStripL_id (l : List Char)
    (h1 : ∀ c, l.head? = some c → isPySpace c = false)
    (h2 : ∀ c, l.getLast? = some c → isPySpace c = false) :
    pyStripL l = l := by
  have d1 : l.dropWhile isPySpace = l := by
    cases l with
    | nil => rfl
    | cons c t =>
        rw [List.dropWhile_cons, if_neg]
        simp [h1 c rfl]
  have d2 : l.reverse.dropWhile isPySpace = l.reverse := by
    cases hrev : l.reverse with
    | nil => rfl
    | cons c t =>
        have hlast : l.getLast? = some c := by
          rw [← List.head?_reverse, hrev]
          rfl
        rw [List.dropWhile_cons, if_neg]
        simp [h2 c hlast]
  unfold pyStripL
  rw [d1, d2, List.reverse_reverse]

/-- The whole section pattern succeeds at its template heading: the gap
consumes exactly the blank line, and the capture is the field text plus the
blank line and `---` rule that follow it. -/
theorem matchFieldAt_at_header (hdr : List Char) (x : Char) (s R : List Char)
    (hx : isPySpace x = false) (hs : ∀ c ∈ s, c ≠ '\n') :
    matchFieldAt hdr (hdr ++ '\n' :: '\n' :: x :: (s ++
        ('\n' :: '\n' :: '-' :: '-' :: '-' :: '\n' :: '\n' :: '#' :: '#' :: R))) =
      some ((x :: s) ++ ['\n', '\n', '-', '-', '-']) := by
  unfold matchFieldAt
  rw [if_pos (chPre_self_append hdr _)]
  rw [List.drop_left]
  rw [gapCandidates_two x _ hx]
  have hdrop : ('\n' :: '\n' :: x :: (s ++
      ('\n' :: '\n' :: '-' :: '-' :: '-' :: '\n' :: '\n' :: '#' :: '#' :: R))).drop 2 =
      x :: (s ++ ('\n' :: '\n' :: '-' :: '-' :: '-' :: '\n' :: '\n' :: '#' :: '#' :: R)) := rfl
  simp only [List.findSome?]
  rw [hdrop]
  rw [show lazyCapture (x :: (s ++
      ('\n' :: '\n' :: '-' :: '-' :: '-' :: '\n' :: '\n' :: '#' :: '#' :: R))) =
      lazyCaptureFrom [x] (s ++
        ('\n' :: '\n' :: '-' :: '-' :: '-' :: '\n' :: '\n' :: '#' :: '#' :: R)) from rfl]
  rw [lazyCaptureFrom_run s hs [x] R]
  simp

/-- The summary pattern fails at a `#` followed by a space. -/
theorem matchFieldAt_sum_hash_space (R : List Char) :
    matchFieldAt sumHdr ('#' :: ' ' :: R) = none := by
  rw [sumHdr_eq]
  exact matchFieldAt_hash_space _ _

/-- The next-action pattern fails at a `#` followed by a space. -/
theorem matchFieldAt_act_hash_space (R : List Char) :
    matchFieldAt actHdr ('#' :: ' ' :: R) = none := by
  rw [actHdr_eq]
  exact matchFieldAt_hash_space _ _

/-- The summary scan skips a `#`-free stretch. -/
theorem searchField_sum_skip (A B : List Char) (hA : ∀ c ∈ A, c ≠ '#') :
    searchField sumHdr (A ++ B) = searchField sumHdr B := by
  rw [sumHdr_eq]
  exact searchField_skip _ _ _ hA

/-- The next-action scan skips a `#`-free stretch. -/
theorem searchField_act_skip (A B : List Char) (hA : ∀ c ∈ A, c ≠ '#') :
    searchField actHdr (A ++ B) = searchField actHdr B := by
  rw [actHdr_eq]
  exact searchField_skip _ _ _ hA

/-- The summary scan passes over the document title up to the created field. -/
theorem searchField_sum_skip_lit1 (B : List Char) :
    searchField sumHdr ("# Session Context Snapshot\n\n**Created:** ".toList ++ B) =
      searchField sumHdr B := by
  rw [show "# Session Context Snapshot\n\n**Created:** ".toList =
      '#' :: ' ' :: "Session Context Snapshot\n\n**Created:** ".toList from by decide]
  simp only [List.cons_append]
  rw [searchField_cons_none _ _ _ (matchFieldAt_sum_hash_space _)]
  rw [← List.cons_append]
  exact searchField_sum_skip _ _ (by decide)

/-- The next-action scan passes over the document title up to the created
field. -/
theorem searchField_act_skip_lit1 (B : List Char) :
    searchField actHdr ("# Session Context Snapshot\n\n**Created:** ".toList ++ B) =
      searchField actHdr B := by
  rw [show "# Session Context Snapshot\n\n**Created:** ".toList =
      '#' :: ' ' :: "Session Context Snapshot\n\n**Created:** ".toList from by decide]
  simp only [List.cons_append]
  rw [searchField_cons_none _ _ _ (matchFieldAt_act_hash_space _)]
  rw [← List.cons_append]
  exact searchField_act_skip _ _ (by decide)

/-- The summary scan passes over the `## 📋 Session Info` block up to the
started field. -/
theorem searchField_sum_skip_info (B : List Char) :
    searchField sumHdr ("\n\n---\n\n## 📋 Session Info\n\n- **Started:** ".toList ++ B) =
      searchField sumHdr B := by
  rw [show "\n\n---\n\n## 📋 Session Info\n\n- **Started:** ".toList =
      "\n\n---\n\n".toList ++
        ('#' :: '#' :: ' ' :: '📋' :: " Session Info\n\n- **Started:** ".toList) from by decide]
  rw [List.append_assoc]
  rw [searchField_sum_skip "\n\n---\n\n".toList _ (by decide)]
  simp only [List.cons_append]
  rw [searchField_cons_none _ _ _ (matchFieldAt_sum_at_clipboard _)]
  rw [searchField_cons_none _ _ _ (matchFieldAt_sum_hash_space _)]
  rw [← List.cons_append, ← List.cons_append]
  exact searchField_sum_skip _ _ (by decide)

/-- The next-action scan passes over the `## 📋 Session Info` block up to the
started field. -/
theorem searchField_act_skip_info (B : List Char) :
    searchField actHdr ("\n\n---\n\n## 📋 Session Info\n\n- **Started:** ".toList ++ B) =
      searchField actHdr B := by
  rw [show "\n\n---\n\n## 📋 Session Info\n\n- **Started:** ".toList =
      "\n\n---\n\n".toList ++
        ('#' :: '#' :: ' ' :: '📋' :: " Session Info\n\n- **Started:** ".toList) from by decide]
  rw [List.append_assoc]
  rw [searchField_act_skip "\n\n---\n\n".toList _ (by decide)]
  simp only [List.cons_append]
  rw [searchField_cons_none _ _ _ (matchFieldAt_act_at_clipboard _)]
  rw [searchField_cons_none _ _ _ (matchFieldAt_act_hash_space _)]
  rw [← List.cons_append, ← List.cons_append]
  exact searchField_act_skip _ _ (by decide)

/-- The next-action scan passes over the `## 📝 Summary` heading itself. -/
theorem searchField_act_skip_sumhdr (B : List Char) :
    searchField actHdr ("\n\n---\n\n## 📝 Summary\n\n".toList ++ B) =
      searchField actHdr B := by
  rw [show "\n\n---\n\n## 📝 Summary\n\n".toList =
      "\n\n---\n\n".toList ++ ('#' :: '#' :: ' ' :: '📝' :: " Summary\n\n".toList) from by decide]
  rw [List.append_assoc]
  rw [searchField_act_skip "\n\n---\n\n".toList _ (by decide)]
  simp only [List.cons_append]
  rw [searchField_cons_none _ _ _ (matchFieldAt_act_at_memo _)]
  rw [searchField_cons_none _ _ _ (matchFieldAt_act_hash_space _)]
  rw [← List.cons_append, ← List.cons_append]
  exact searchField_act_skip _ _ (by decide)

/-- The last character before the captured `---` rule is a dash. -/
theorem getLast_append_dashes (l : List Char) :
    (l ++ ['\n', '\n', '-', '-', '-']).getLast? = some '-' := by
  rw [← List.head?_reverse, List.reverse_append]
  rfl

set_option maxHeartbeats 1000000 in
/-- C2 amended: formatting a snapshot and parsing it back does NOT recover the
given strings: for every completed-session record whose rendered fields are
free of `#`, and all non-empty summary and next-action texts that are
single-line (`\n`-free), `#`-free, and do not start with whitespace, the
parsed summary and next-action each equal the given text with the following
blank line and `---` rule appended (the lazy captures only stop at `\n\n##`,
which first occurs after the next `---`, and `strip()` does not remove the
trailing dashes). -/
theorem C2_snapshot_roundtrip_appends_rule
    (created id start_time end_time description : List Char) (duration : Nat)
    (summary next_action : List Char)
    (hcr : ∀ c ∈ created, c ≠ '#') (hid : ∀ c ∈ id, c ≠ '#')
    (hst : ∀ c ∈ start_time, c ≠ '#') (het : ∀ c ∈ end_time, c ≠ '#')
    (hdesc : ∀ c ∈ description, c ≠ '#')
    (hdur : ∀ c ∈ (ctxFormatDuration duration).toList, c ≠ '#')
    (hsne : summary ≠ []) (hnne : next_action ≠ [])
    (hshead : ∀ c, summary.head? = some c → isPySpace c = false)
    (hnhead : ∀ c, next_action.head? = some c → isPySpace c = false)
    (hschars : ∀ c ∈ summary, c ≠ '\n' ∧ c ≠ '#')
    (hnchars : ∀ c ∈ next_action, c ≠ '\n' ∧ c ≠ '#') :
    (parse_snapshot (formatSnapshot created id start_time end_time description duration
        summary next_action none none)).summary =
      some (summary ++ "\n\n---".toList) ∧
    (parse_snapshot (formatSnapshot created id start_time end_time description duration
        summary next_action none none)).next_action =
      some (next_action ++ "\n\n---".toList) := by
  obtain ⟨x, s, rfl⟩ : ∃ a l, summary = a :: l := by
    cases summary with
    | nil => exact absurd rfl hsne
    | cons a l => exact ⟨a, l, rfl⟩
  obtain ⟨y, n, rfl⟩ : ∃ a l, next_action = a :: l := by
    cases next_action with
    | nil => exact absurd rfl hnne
    | cons a l => exact ⟨a, l, rfl⟩
  have hx : isPySpace x = false := hshead x rfl
  have hy : isPySpace y = false := hnhead y rfl
  have hsnl : ∀ c ∈ s, c ≠ '\n' := fun c hc => (hschars c (by simp [hc])).1
  have hnnl : ∀ c ∈ n, c ≠ '\n' := fun c hc => (hnchars c (by simp [hc])).1
  have hsh : ∀ c ∈ (x :: s), c ≠ '#' := fun c hc => (hschars c hc).2
  have hfmt : formatSnapshot created id start_time end_time description duration
      (x :: s) (y :: n) none none =
      "# Session Context Snapshot\n\n**Created:** ".toList ++ created
      ++ "  \n**Session ID:** ".toList ++ id
      ++ "\n\n---\n\n## 📋 Session Info\n\n- **Started:** ".toList ++ start_time
      ++ "\n- **Ended:** ".toList ++ end_time
      ++ "\n- **Duration:** ".toList ++ (ctxFormatDuration duration).toList
      ++ "\n- **Description:** ".toList ++ description
      ++ "\n\n---\n\n## 📝 Summary\n\n".toList ++ (x :: s)
      ++ "\n\n---\n\n## 🎯 Next Action\n\n".toList ++ (y :: n)
      ++ "\n\n---\n".toList
      ++ "\n## 💡 Notes\n\n- Use this snapshot to quickly restore context\n- Review Next Action before starting work\n- Check git status for any uncommitted work\n".toList := by
    have h0 : formatSnapshot created id start_time end_time description duration
        (x :: s) (y :: n) none none =
        "# Session Context Snapshot\n\n**Created:** ".toList ++ created
        ++ "  \n**Session ID:** ".toList ++ id
        ++ "\n\n---\n\n## 📋 Session Info\n\n- **Started:** ".toList ++ start_time
        ++ "\n- **Ended:** ".toList ++ end_time
        ++ "\n- **Duration:** ".toList ++ (ctxFormatDuration duration).toList
        ++ "\n- **Description:** ".toList ++ description
        ++ "\n\n---\n\n## 📝 Summary\n\n".toList ++ (x :: s)
        ++ "\n\n---\n\n## 🎯 Next Action\n\n".toList ++ (y :: n)
        ++ "\n\n---\n".toList ++ ([] : List Char) ++ ([] : List Char)
        ++ "\n## 💡 Notes\n\n- Use this snapshot to quickly restore context\n- Review Next Action before starting work\n- Check git status for any uncommitted work\n".toList := rfl
    rw [h0, List.append_nil, List.append_nil]
  have hsum : searchField sumHdr (formatSnapshot created id start_time end_time description
      duration (x :: s) (y :: n) none none) = some ((x :: s) ++ ['\n', '\n', '-', '-', '-']) := by
    rw [hfmt]
    simp only [List.append_assoc]
    rw [show "\n\n---\n\n## 📝 Summary\n\n".toList =
        "\n\n---\n\n".toList ++ (sumHdr ++ ('\n' :: '\n' :: ([] : List Char))) from by decide]
    rw [show "\n\n---\n\n## 🎯 Next Action\n\n".toList =
        ('\n' :: '\n' :: '-' :: '-' :: '-' :: '\n' :: '\n' :: '#' :: '#' ::
          " 🎯 Next Action\n\n".toList) from by decide]
    simp only [List.append_assoc, List.cons_append, List.nil_append]
    rw [searchField_sum_skip_lit1]
    rw [searchField_sum_skip created _ hcr]
    rw [searchField_sum_skip "  \n**Session ID:** ".toList _ (by decide)]
    rw [searchField_sum_skip id _ hid]
    rw [searchField_sum_skip_info]
    rw [searchField_sum_skip start_time _ hst]
    rw [searchField_sum_skip "\n- **Ended:** ".toList _ (by decide)]
    rw [searchField_sum_skip end_time _ het]
    rw [searchField_sum_skip "\n- **Duration:** ".toList _ (by decide)]
    rw [searchField_sum_skip _ _ hdur]
    rw [searchField_sum_skip "\n- **Description:** ".toList _ (by decide)]
    rw [searchField_sum_skip description _ hdesc]
    rw [searchField_sum_skip "\n\n---\n\n".toList _ (by decide)]
    exact searchField_found _ _ _ (matchFieldAt_at_header sumHdr x s _ hx hsnl)
  have hact : searchField actHdr (formatSnapshot created id start_time end_time description
      duration (x :: s) (y :: n) none none) = some ((y :: n) ++ ['\n', '\n', '-', '-', '-']) := by
    rw [hfmt]
    simp only [List.append_assoc]
    rw [show "\n\n---\n\n## 🎯 Next Action\n\n".toList =
        "\n\n---\n\n".toList ++ (actHdr ++ ('\n' :: '\n' :: ([] : List Char))) from by decide]
    rw [show ("\n\n---\n".toList ++
        "\n## 💡 Notes\n\n- Use this snapshot to quickly restore context\n- Review Next Action before starting work\n- Check git status for any uncommitted work\n".toList) =
        ('\n' :: '\n' :: '-' :: '-' :: '-' :: '\n' :: '\n' :: '#' :: '#' ::
          " 💡 Notes\n\n- Use this snapshot to quickly restore context\n- Review Next Action before starting work\n- Check git status for any uncommitted work\n".toList) from by decide]
    simp only [List.append_assoc, List.cons_append, List.nil_append]
    rw [searchField_act_skip_lit1]
    rw [searchField_act_skip created _ hcr]
    rw [searchField_act_skip "  \n**Session ID:** ".toList _ (by decide)]
    rw [searchField_act_skip id _ hid]
    rw [searchField_act_skip_info]
    rw [searchField_act_skip start_time _ hst]
    rw [searchField_act_skip "\n- **Ended:** ".toList _ (by decide)]
    rw [searchField_act_skip end_time _ het]
    rw [searchField_act_skip "\n- **Duration:** ".toList _ (by decide)]
    rw [searchField_act_skip _ _ hdur]
    rw [searchField_act_skip "\n- **Description:** ".toList _ (by decide)]
    rw [searchField_act_skip description _ hdesc]
    rw [searchField_act_skip_sumhdr]
    rw [← List.cons_append]
    rw [searchField_act_skip (x :: s) _ hsh]
    rw [searchField_act_skip "\n\n---\n\n".toList _ (by decide)]
    exact searchField_found _ _ _ (matchFieldAt_at_header actHdr y n _ hy hnnl)
  have hstrip_s : pyStripL ((x :: s) ++ ['\n', '\n', '-', '-', '-']) =
      (x :: s) ++ ['\n', '\n', '-', '-', '-'] := by
    apply pyStripL_id
    · intro c hc
      rw [show ((x :: s) ++ ['\n', '\n', '-', '-', '-']).head? = some x from rfl] at hc
      rw [Option.some.injEq] at hc
      exact hc ▸ hx
    · intro c hc
      rw [getLast_append_dashes] at hc
      rw [Option.some.injEq] at hc
      exact hc ▸ (by decide : isPySpace '-' = false)
  have hstrip_n : pyStripL ((y :: n) ++ ['\n', '\n', '-', '-', '-']) =
      (y :: n) ++ ['\n', '\n', '-', '-', '-'] := by
    apply pyStripL_id
    · intro c hc
      rw [show ((y :: n) ++ ['\n', '\n', '-', '-', '-']).head? = some y from rfl] at hc
      rw [Option.some.injEq] at hc
      exact hc ▸ hy
    · intro c hc
      rw [getLast_append_dashes] at hc
      rw [Option.some.injEq] at hc
      exact hc ▸ (by decide : isPySpace '-' = false)
  refine ⟨?_, ?_⟩
  · simp only [parse_snapshot]
    rw [hsum]
    show some (pyStripL ((x :: s) ++ ['\n', '\n', '-', '-', '-'])) = _
    rw [hstrip_s]
    rfl
  · simp only [parse_snapshot]
    rw [hact]
    show some (pyStripL ((y :: n) ++ ['\n', '\n', '-', '-', '-'])) = _
    rw [hstrip_n]
    rfl

set_option maxHeartbeats 1000000 in
/-- C2 counterexample: formatting a snapshot with summary "Work summary" and
next action "Next step" and parsing the same text back yields
"Work summary\n\n---" and "Next step\n\n---" — not the given strings (even
after trimming, which cannot remove the trailing `---`). -/
theorem C2_roundtrip_counterexample :
    (parse_snapshot (formatSnapshot "2025-01-15 12:00:00".toList "test-id".toList
        "2025-01-15T10:00:00".toList "2025-01-15T11:00:00".toList "Test work".toList 3600
        "Work summary".toList "Next step".toList none none)).summary =
      some ("Work summary\n\n---".toList) ∧
    (parse_snapshot (formatSnapshot "2025-01-15 12:00:00".toList "test-id".toList
        "2025-01-15T10:00:00".toList "2025-01-15T11:00:00".toList "Test work".toList 3600
        "Work summary".toList "Next step".toList none none)).next_action =
      some ("Next step\n\n---".toList) ∧
    (parse_snapshot (formatSnapshot "2025-01-15 12:00:00".toList "test-id".toList
        "2025-01-15T10:00:00".toList "2025-01-15T11:00:00".toList "Test work".toList 3600
        "Work summary".toList "Next step".toList none none)).summary ≠
      some (pyStripL "Work summary".toList) ∧
    (parse_snapshot (formatSnapshot "2025-01-15 12:00:00".toList "test-id".toList
        "2025-01-15T10:00:00".toList "2025-01-15T11:00:00".toList "Test work".toList 3600
        "Work summary".toList "Next step".toList none none)).next_action ≠
      some (pyStripL "Next step".toList) := by
  decide

set_option maxHeartbeats 1000000 in
/-- C2 witness: instantiates the amended theorem at the session record of the
counterexample. -/
theorem C2_snapshot_roundtrip_appends_rule_witness :
    (parse_snapshot (formatSnapshot "2025-01-15 12:05:00".toList "id-77".toList
        "2025-01-15T10:00:00".toList "2025-01-15T12:00:00".toList "Refactor".toList 5400
        "Fixed the parser".toList "Add more tests".toList none none)).summary =
      some ("Fixed the parser".toList ++ "\n\n---".toList) ∧
    (parse_snapshot (formatSnapshot "2025-01-15 12:05:00".toList "id-77".toList
        "2025-01-15T10:00:00".toList "2025-01-15T12:00:00".toList "Refactor".toList 5400
        "Fixed the parser".toList "Add more tests".toList none none)).next_action =
      some ("Add more tests".toList ++ "\n\n---".toList) := by
  have h := C2_snapshot_roundtrip_appends_rule "2025-01-15 12:05:00".toList "id-77".toList
    "2025-01-15T10:00:00".toList "2025-01-15T12:00:00".toList "Refactor".toList 5400
    "Fixed the parser".toList "Add more tests".toList
    (by decide) (by decide) (by decide) (by decide) (by decide) (by decide)
    (by decide) (by decide)
    (by
      intro c hc
      simp at hc
      subst hc
      decide)
    (by
      intro c hc
      simp at hc
      subst hc
      decide)
    (by decide) (by decide)
  exact h
